import Mathlib

/-!
Shallow embedding of `demo/mock-server.py`, a mock OpenAI-compatible
chat-completion server: a fixed catalog of three canned responses, a turn
selector driven by the number of `"role": "tool"` messages in the request,
an SSE chunk encoder, a word-by-word stream pacer, and a request router.

Conventions of the embedding:
* Python strings are Lean `String`s (sequences of code points).
* `int(time.time())` is abstracted as an explicit `now : Nat` argument;
  no verified property depends on the timestamp.
* Fallible Python code (uncaught exceptions such as `json.JSONDecodeError`,
  `AttributeError`, `TypeError`) is modelled with `Except PyError`.
* The SSE wire framing (`data: <json>` plus a blank line) is modelled
  structurally: an event is either a JSON chunk payload or the distinguished
  `data: [DONE]` sentinel line.
* The inter-chunk `time.sleep(CHUNK_DELAY)` pacing delay is real-time
  behaviour with no effect on the emitted byte sequence and is not modelled.
-/

/-- `MODEL_ID` from the source. -/
def MODEL_ID : String := "demo-model-7b"

/-- Catalog entry 0 (`TOOL_CALL_READ_FILE`): read-file action request. -/
def TOOL_CALL_READ_FILE : String :=
  "Let me start by reading the README to understand this project.\n\n<tool_call>\x7b\"name\":\"read_file\",\"arguments\":\x7b\"path\":\"README.md\"\x7d\x7d</tool_call>"

/-- Catalog entry 1 (`TOOL_CALL_LIST_DIR`): list-directory action request. -/
def TOOL_CALL_LIST_DIR : String :=
  "Good, I can see the README. Let me also check the project structure.\n\n<tool_call>\x7b\"name\":\"list_directory\",\"arguments\":\x7b\"path\":\".\"\x7d\x7d</tool_call>"

/-- Catalog entry 2+ (`FINAL_SUMMARY`): the long-form summary. The Python
source is a triple-quoted string with backslash line joins; this literal is
its exact value. -/
def FINAL_SUMMARY : String :=
  "Here\x27s a summary of the **OpenOrca** project:\n\n**OpenOrca** is an autonomous AI coding agent that runs in your terminal. It connects to local LLM servers like LM Studio or Ollama via an OpenAI-compatible API and uses **31 built-in tools** to read, write, and execute code autonomously.\n\n**Key highlights:**\n\n- **Autonomous agent loop** — plans, acts, observes, and iterates up to 25 turns per request\n- **31 tools** — file I/O, shell execution, git operations, web search, GitHub integration, and sub-agent spawning\n- **Works with any local model** — Mistral, Llama, DeepSeek, Qwen, and more\n- **Smart tool calling** — auto-detects native function calling support, falls back to text-based `<tool_call>` tags\n- **Rich CLI** — streaming output, thinking indicator, slash commands, session management, context compaction\n- **Privacy-first** — everything runs locally, no data leaves your machine\n\nThe project is structured as a .NET 9 solution with three main assemblies: `OpenOrca.Cli` (console UI), `OpenOrca.Core` (domain logic), and `OpenOrca.Tools` (tool implementations). It\x27s MIT licensed and designed as a local, open-source alternative to cloud-based AI coding assistants."

/-- The opening delimiter of the text-embedded action-request marker
convention used by the canned responses. -/
def TOOL_CALL_OPEN : String := "<tool_call>"

/-- The closing delimiter of the text-embedded action-request marker. -/
def TOOL_CALL_CLOSE : String := "</tool_call>"

/-- The `delta` object of one streamed choice: the `content` key is optional
(`make_sse_chunk` only inserts it for a truthy, i.e. non-empty, fragment).
`content = none` models the empty delta object `\x7b\x7d`. -/
structure Delta where
  content : Option String
deriving DecidableEq

/-- One element of the `choices` array of a chunk payload. `finish_reason`
is optional: `make_sse_chunk` only inserts the key when the argument is
truthy. -/
structure Choice where
  index : Nat
  delta : Delta
  finish_reason : Option String
deriving DecidableEq

/-- The JSON payload of one `data:` line built by `make_sse_chunk`. -/
structure ChunkPayload where
  id : String
  object : String
  created : Nat
  model : String
  choices : List Choice
deriving DecidableEq

/-- `make_sse_chunk(content, finish_reason=None)` from the source: builds one
chunk payload. `delta["content"]` is set only when `content` is truthy (a
non-empty string); `choice["finish_reason"]` is set only when `finish_reason`
is truthy (not `None` and not the empty string). `now` stands for
`int(time.time())` at the moment of the call. -/
def make_sse_chunk (content : String) (finish_reason : Option String) (now : Nat) :
    ChunkPayload :=
  let delta : Delta := { content := if content = "" then none else some content }
  let choice : Choice :=
    { index := 0
      delta := delta
      finish_reason :=
        match finish_reason with
        | some s => if s = "" then none else some s
        | none => none }
  { id := "chatcmpl-demo"
    object := "chat.completion.chunk"
    created := now
    model := MODEL_ID
    choices := [choice] }

/-- One line written to the SSE response body: either a `data: <json>` line
carrying a chunk payload, or the distinguished non-JSON sentinel line
`data: [DONE]`. -/
inductive SseEvent where
  | chunk (payload : ChunkPayload)
  | done
deriving DecidableEq

/-- Helper over the output protocol: `true` exactly on the `[DONE]`
sentinel line. -/
def is_done_event : SseEvent → Bool
  | SseEvent.done => true
  | SseEvent.chunk _ => false

/-- The `delta.content` carried by an event (the single choice's optional
content key); `none` for the sentinel line or a malformed choices array. -/
def event_content : SseEvent → Option String
  | SseEvent.chunk p =>
    match p.choices with
    | [c] => c.delta.content
    | _ => none
  | SseEvent.done => none

/-- The `id` field carried by an event; `none` for the sentinel line. -/
def event_id : SseEvent → Option String
  | SseEvent.chunk p => some p.id
  | SseEvent.done => none

/-- Worker for `py_split_space`: scans the character list, cutting at every
single space, accumulating the current word in reverse. -/
def split_space_aux : List Char → List Char → List String
  | [], acc => [String.mk acc.reverse]
  | c :: cs, acc =>
    if c = ' ' then String.mk acc.reverse :: split_space_aux cs []
    else split_space_aux cs (c :: acc)

/-- Model of Python's `text.split(" ")` (an explicit one-character
separator): cuts at every single space, so consecutive spaces yield empty
words, and the result always has at least one element. -/
def py_split_space (text : String) : List String :=
  split_space_aux text.data []

/-- The content-bearing chunk lines written by the `for i, word in
enumerate(words)` loop of `stream_text`: token 0 is the word itself, every
later token is the word with a single leading space. -/
def stream_body (text : String) (now : Nat) : List SseEvent :=
  (py_split_space text).enum.map fun p =>
    SseEvent.chunk (make_sse_chunk (if p.fst = 0 then p.snd else " " ++ p.snd) none now)

/-- `stream_text(wfile, text)` from the source, as the ordered list of SSE
lines it writes: the paced word chunks, then the final chunk with
`finish_reason="stop"`, then the `data: [DONE]` sentinel. -/
def stream_text (text : String) (now : Nat) : List SseEvent :=
  stream_body text now ++
    [SseEvent.chunk (make_sse_chunk "" (some "stop") now), SseEvent.done]

/-- `true` when the second list occurs at the head of the first. -/
def startsWithChars : List Char → List Char → Bool
  | _, [] => true
  | [], _ :: _ => false
  | a :: as, b :: bs => a == b && startsWithChars as bs

/-- `true` when `pat` occurs as a contiguous substring of `hay`. -/
def containsSub : List Char → List Char → Bool
  | [], pat => startsWithChars [] pat
  | c :: t, pat => startsWithChars (c :: t) pat || containsSub t pat

/-- The uncaught Python exceptions the handler code can raise. -/
inductive PyError where
  | jsonDecodeError
  | attributeError
  | typeError
deriving DecidableEq

/-- A parsed JSON value, as produced by `json.loads`. Numbers are modelled
as integers only; no verified claim exercises a numeric payload. -/
inductive Json where
  | null
  | bool (b : Bool)
  | num (n : Int)
  | str (s : String)
  | arr (elems : List Json)
  | obj (fields : List (String × Json))

/-- Dict lookup on the field list of a JSON object. -/
def dictFind (fields : List (String × Json)) (key : String) : Option Json :=
  (fields.find? fun kv => kv.fst == key).map Prod.snd

/-- Dict insertion: replaces an existing binding for the key (Python dicts,
hence `json.loads` objects, keep one value per key, the last one parsed). -/
def insertField (fields : List (String × Json)) (key : String) (v : Json) :
    List (String × Json) :=
  match fields with
  | [] => [(key, v)]
  | kv :: rest =>
    if kv.fst == key then (key, v) :: rest else kv :: insertField rest key v

/-- Skips JSON whitespace. -/
def skip_ws : List Char → List Char
  | [] => []
  | c :: cs =>
    if c = ' ' ∨ c = '\n' ∨ c = '\t' ∨ c = '\r' then skip_ws cs else c :: cs

/-- Reads the remainder of a JSON string literal (the opening quote already
consumed), handling the standard escapes. Returns the decoded characters
and the input after the closing quote. -/
def parse_string_chars : Nat → List Char → Except PyError (List Char × List Char)
  | 0, _ => Except.error PyError.jsonDecodeError
  | fuel + 1, input =>
    match input with
    | [] => Except.error PyError.jsonDecodeError
    | '"' :: rest => Except.ok ([], rest)
    | '\\' :: esc :: rest =>
      let decoded : Except PyError (Char × List Char) :=
        match esc with
        | '"' => Except.ok ('"', rest)
        | '\\' => Except.ok ('\\', rest)
        | '/' => Except.ok ('/', rest)
        | 'b' => Except.ok ('\x08', rest)
        | 'f' => Except.ok ('\x0c', rest)
        | 'n' => Except.ok ('\n', rest)
        | 'r' => Except.ok ('\r', rest)
        | 't' => Except.ok ('\t', rest)
        | 'u' =>
          match rest with
          | h1 :: h2 :: h3 :: h4 :: rest4 =>
            let hexVal : Char → Option Nat := fun c =>
              if '0' ≤ c ∧ c ≤ '9' then some (c.toNat - '0'.toNat)
              else if 'a' ≤ c ∧ c ≤ 'f' then some (c.toNat - 'a'.toNat + 10)
              else if 'A' ≤ c ∧ c ≤ 'F' then some (c.toNat - 'A'.toNat + 10)
              else none
            match hexVal h1, hexVal h2, hexVal h3, hexVal h4 with
            | some a, some b, some c, some d =>
              Except.ok (Char.ofNat (((a * 16 + b) * 16 + c) * 16 + d), rest4)
            | _, _, _, _ => Except.error PyError.jsonDecodeError
          | _ => Except.error PyError.jsonDecodeError
        | _ => Except.error PyError.jsonDecodeError
      match decoded with
      | Except.ok (ch, rest2) =>
        match parse_string_chars fuel rest2 with
        | Except.ok (chars, rem) => Except.ok (ch :: chars, rem)
        | Except.error e => Except.error e
      | Except.error e => Except.error e
    | c :: rest =>
      match parse_string_chars fuel rest with
      | Except.ok (chars, rem) => Except.ok (c :: chars, rem)
      | Except.error e => Except.error e

/-- Reads a run of decimal digits. -/
def parse_digits : List Char → (List Char × List Char)
  | [] => ([], [])
  | c :: cs =>
    if '0' ≤ c ∧ c ≤ '9' then
      let p := parse_digits cs
      (c :: p.fst, p.snd)
    else ([], c :: cs)

/-- Digit list to natural number. -/
def digits_to_nat (ds : List Char) : Nat :=
  ds.foldl (fun n c => n * 10 + (c.toNat - '0'.toNat)) 0

mutual

/-- Model of the value grammar of Python's `json.loads`, as a fuelled
recursive-descent parser. Fractions and exponents of numbers are not
modelled (no claim exercises numbers); everything else follows the JSON
grammar: on any input that does not parse, the result is
`PyError.jsonDecodeError`, modelling the uncaught `json.JSONDecodeError`. -/
def parse_value : Nat → List Char → Except PyError (Json × List Char)
  | 0, _ => Except.error PyError.jsonDecodeError
  | fuel + 1, input =>
    match skip_ws input with
    | [] => Except.error PyError.jsonDecodeError
    | c :: cs =>
      if c = '\x7b' then parse_members fuel cs []
      else if c = '[' then parse_elems fuel cs
      else if c = '"' then
        match parse_string_chars (cs.length + 1) cs with
        | Except.ok (chars, rem) => Except.ok (Json.str (String.mk chars), rem)
        | Except.error e => Except.error e
      else if c = 't' then
        match cs with
        | 'r' :: 'u' :: 'e' :: rem => Except.ok (Json.bool true, rem)
        | _ => Except.error PyError.jsonDecodeError
      else if c = 'f' then
        match cs with
        | 'a' :: 'l' :: 's' :: 'e' :: rem => Except.ok (Json.bool false, rem)
        | _ => Except.error PyError.jsonDecodeError
      else if c = 'n' then
        match cs with
        | 'u' :: 'l' :: 'l' :: rem => Except.ok (Json.null, rem)
        | _ => Except.error PyError.jsonDecodeError
      else if c = '-' then
        match parse_digits cs with
        | ([], _) => Except.error PyError.jsonDecodeError
        | (ds, rem) => Except.ok (Json.num (-(digits_to_nat ds : Int)), rem)
      else if '0' ≤ c ∧ c ≤ '9' then
        match parse_digits (c :: cs) with
        | (ds, rem) => Except.ok (Json.num (digits_to_nat ds), rem)
      else Except.error PyError.jsonDecodeError

/-- Elements of a JSON array, after the opening bracket. -/
def parse_elems (fuel : Nat) (input : List Char) : Except PyError (Json × List Char) :=
  match fuel with
  | 0 => Except.error PyError.jsonDecodeError
  | fuel + 1 =>
    match skip_ws input with
    | ']' :: rem => Except.ok (Json.arr [], rem)
    | other =>
      match parse_value fuel other with
      | Except.error e => Except.error e
      | Except.ok (v, rest) =>
        match parse_elems_tail fuel rest [v] with
        | Except.ok (elems, rem) => Except.ok (Json.arr elems, rem)
        | Except.error e => Except.error e

/-- Remaining elements of a JSON array (after at least one element). -/
def parse_elems_tail (fuel : Nat) (input : List Char) (acc : List Json) :
    Except PyError (List Json × List Char) :=
  match fuel with
  | 0 => Except.error PyError.jsonDecodeError
  | fuel + 1 =>
    match skip_ws input with
    | ']' :: rem => Except.ok (acc.reverse, rem)
    | ',' :: rest =>
      match parse_value fuel rest with
      | Except.error e => Except.error e
      | Except.ok (v, rest2) => parse_elems_tail fuel rest2 (v :: acc)
    | _ => Except.error PyError.jsonDecodeError

/-- Members of a JSON object, after the opening brace. -/
def parse_members (fuel : Nat) (input : List Char) (acc : List (String × Json)) :
    Except PyError (Json × List Char) :=
  match fuel with
  | 0 => Except.error PyError.jsonDecodeError
  | fuel + 1 =>
    match skip_ws input with
    | '\x7d' :: rem => Except.ok (Json.obj acc, rem)
    | '"' :: rest =>
      match parse_string_chars (rest.length + 1) rest with
      | Except.error e => Except.error e
      | Except.ok (keyChars, rest2) =>
        match skip_ws rest2 with
        | ':' :: rest3 =>
          match parse_value fuel rest3 with
          | Except.error e => Except.error e
          | Except.ok (v, rest4) =>
            let acc2 := insertField acc (String.mk keyChars) v
            match skip_ws rest4 with
            | ',' :: rest5 => parse_members_more fuel rest5 acc2
            | '\x7d' :: rem => Except.ok (Json.obj acc2, rem)
            | _ => Except.error PyError.jsonDecodeError
        | _ => Except.error PyError.jsonDecodeError
    | _ => Except.error PyError.jsonDecodeError

/-- After a comma inside a JSON object: the next member must follow. -/
def parse_members_more (fuel : Nat) (input : List Char) (acc : List (String × Json)) :
    Except PyError (Json × List Char) :=
  match fuel with
  | 0 => Except.error PyError.jsonDecodeError
  | fuel + 1 =>
    match skip_ws input with
    | '"' :: rest => parse_members fuel ('"' :: rest) acc
    | _ => Except.error PyError.jsonDecodeError

end

/-- Model of Python's `json.loads` (standard library, outside this
repository): parses one JSON document and requires only whitespace to
follow; any failure models the uncaught `json.JSONDecodeError`. -/
def json_loads (s : String) : Except PyError Json :=
  match parse_value (2 * s.data.length + 2) s.data with
  | Except.error e => Except.error e
  | Except.ok (v, rest) =>
    match skip_ws rest with
    | [] => Except.ok v
    | _ :: _ => Except.error PyError.jsonDecodeError

/-- Model of Python iteration (`for m in messages`) over a `json.loads`
value: lists yield their elements, strings their one-character substrings,
dicts their keys; numbers, booleans and `None` raise `TypeError`. -/
def py_iter : Json → Except PyError (List Json)
  | Json.arr l => Except.ok l
  | Json.str s => Except.ok (s.data.map fun c => Json.str (String.mk [c]))
  | Json.obj fields => Except.ok (fields.map fun kv => Json.str kv.fst)
  | _ => Except.error PyError.typeError

/-- `m.get("role") == "tool"` for one message `m`: `dict.get` on a non-dict
raises `AttributeError`; a missing key gives `None`, and only the string
value `"tool"` compares equal to `"tool"`. -/
def msg_role_is_tool : Json → Except PyError Bool
  | Json.obj fields =>
    Except.ok
      (match dictFind fields "role" with
       | some (Json.str r) => r == "tool"
       | _ => false)
  | _ => Except.error PyError.attributeError

/-- `tool_msg_count = sum(1 for m in messages if m.get("role") == "tool")`
from `_handle_completions`, evaluated left to right; the first non-dict
message raises. -/
def tool_msg_count : List Json → Except PyError Nat
  | [] => Except.ok 0
  | m :: rest =>
    match msg_role_is_tool m with
    | Except.error e => Except.error e
    | Except.ok b =>
      match tool_msg_count rest with
      | Except.error e => Except.error e
      | Except.ok n => Except.ok ((if b then 1 else 0) + n)

/-- The `if tool_msg_count == 0 / elif == 1 / else` chain of
`_handle_completions` picking the canned response text. -/
def pick_response (n : Nat) : String :=
  if n = 0 then TOOL_CALL_READ_FILE
  else if n = 1 then TOOL_CALL_LIST_DIR
  else FINAL_SUMMARY

/-- The selection step of `_handle_completions` as a function of the
message list: count the tool-role messages, then pick the canned text. -/
def select_text (messages : List Json) : Except PyError String :=
  match tool_msg_count messages with
  | Except.ok n => Except.ok (pick_response n)
  | Except.error e => Except.error e

/-- `body.get("messages", [])`: `dict.get` with a default; on a non-dict
`json.loads` result the attribute access raises. -/
def body_get_messages : Json → Except PyError Json
  | Json.obj fields => Except.ok ((dictFind fields "messages").getD (Json.arr []))
  | _ => Except.error PyError.attributeError

/-- The body of `_handle_completions` from reading the request body to the
list of SSE lines it streams: `raw` is the request body read from the
socket (empty when absent), `body = json.loads(raw) if raw else \x7b\x7d`, then
`messages = body.get("messages", [])`, the tool-message count, the canned
text, and `stream_text` over it. Any uncaught exception short-circuits. -/
def completion_events (raw : String) (now : Nat) : Except PyError (List SseEvent) :=
  match (if raw = "" then Except.ok (Json.obj []) else json_loads raw) with
  | Except.error e => Except.error e
  | Except.ok body =>
    match body_get_messages body with
    | Except.error e => Except.error e
    | Except.ok messagesVal =>
      match py_iter messagesVal with
      | Except.error e => Except.error e
      | Except.ok messages =>
        match select_text messages with
        | Except.error e => Except.error e
        | Except.ok text => Except.ok (stream_text text now)

/-- One entry of the model list returned by `_handle_models`. -/
structure ModelEntry where
  id : String
  object : String
  created : Nat
  owned_by : String
deriving DecidableEq

/-- The JSON document returned by `_handle_models`. -/
structure ModelsPayload where
  object : String
  data : List ModelEntry
deriving DecidableEq

/-- The response body written by one exchange: a single (non-streamed) JSON
document, an SSE stream, or the default error page of the HTTP runtime. -/
inductive ReplyBody where
  | jsonDoc (payload : ModelsPayload)
  | sse (events : List SseEvent)
  | errorPage (html : String)
deriving DecidableEq

/-- Status line plus body of one HTTP exchange. -/
structure HttpReply where
  status : Nat
  body : ReplyBody
deriving DecidableEq

/-- `_handle_models`: always a 200 with a fixed single-entry model list. -/
def handle_models (now : Nat) : HttpReply :=
  { status := 200
    body := ReplyBody.jsonDoc
      { object := "list"
        data := [{ id := MODEL_ID, object := "model", created := now, owned_by := "demo" }] } }

/-- The body of the default error page sent by Python's
`BaseHTTPRequestHandler.send_error(404)` (standard library, outside this
repository): the `DEFAULT_ERROR_MESSAGE` HTML template instantiated with
code 404, message "Not Found" and explanation "Nothing matches the given
URI". Only its non-emptiness matters for the verified claims. -/
def http_error_404_body : String :=
  "<!DOCTYPE HTML>\n<html lang=\"en\">\n    <head>\n        <meta charset=\"utf-8\">\n        <title>Error response</title>\n    </head>\n    <body>\n        <h1>Error response</h1>\n        <p>Error code: 404</p>\n        <p>Message: Not Found.</p>\n        <p>Explanation: 404 - Nothing matches the given URI.</p>\n    </body>\n</html>\n"

/-- Model of `self.send_error(code)` from the HTTP runtime, specialised to
404, the only code this server passes: a 404 status whose body is the
default (non-empty) HTML error page. -/
def send_error (code : Nat) : HttpReply :=
  { status := code, body := ReplyBody.errorPage http_error_404_body }

/-- `do_GET`: route `/v1/models` to `_handle_models`, everything else to
`send_error(404)`. -/
def do_GET (path : String) (now : Nat) : HttpReply :=
  if path = "/v1/models" then handle_models now else send_error 404

/-- `do_POST`: route `/v1/chat/completions` to `_handle_completions` (a 200
whose body is the SSE stream, unless an uncaught exception aborts the
exchange before the status line is sent), everything else to
`send_error(404)`. -/
def do_POST (path : String) (raw : String) (now : Nat) : Except PyError HttpReply :=
  if path = "/v1/chat/completions" then
    match completion_events raw now with
    | Except.ok events => Except.ok { status := 200, body := ReplyBody.sse events }
    | Except.error e => Except.error e
  else Except.ok (send_error 404)

/-- The token sequence of the stream pacer, described positionally: the word
at position 0 verbatim, every later word with a single leading space. -/
def tokens_str : List String → List String
  | [] => []
  | w :: ws => w :: ws.map (fun x => " " ++ x)

/-- Boolean check that an event is a content-bearing chunk: its single
choice has a present, non-empty `delta.content`. -/
def content_ok (e : SseEvent) : Bool :=
  match event_content e with
  | some s => decide (s ≠ "")
  | none => false

/-- Boolean check that no word of the split text is empty (equivalently:
the text has no leading, trailing or doubled space). -/
def words_nonempty (text : String) : Bool :=
  (py_split_space text).all fun w => decide (w ≠ "")

set_option maxRecDepth 100000

theorem data_mk (l : List Char) : (String.mk l).data = l := rfl

theorem data_empty : ("" : String).data = [] := rfl

theorem split_space_aux_ne_nil (l acc : List Char) : split_space_aux l acc ≠ [] := by
  cases l with
  | nil => simp [split_space_aux]
  | cons c cs =>
    by_cases hc : c = ' ' <;> simp [split_space_aux, hc]
    exact split_space_aux_ne_nil cs _

theorem space_tokens_join (rest : List String) (h : rest ≠ []) :
    ((rest.map fun w => " " ++ w).map String.data).flatten =
      ' ' :: ((tokens_str rest).map String.data).flatten := by
  cases rest with
  | nil => exact absurd rfl h
  | cons w ws => simp [tokens_str, String.data_append]

theorem join_tokens_split_aux (l acc : List Char) :
    ((tokens_str (split_space_aux l acc)).map String.data).flatten = acc.reverse ++ l := by
  induction l generalizing acc with
  | nil => simp [split_space_aux, tokens_str]
  | cons c cs ih =>
    by_cases hc : c = ' '
    · subst hc
      rw [show split_space_aux (' ' :: cs) acc =
            String.mk acc.reverse :: split_space_aux cs [] from by
          simp [split_space_aux]]
      rw [show tokens_str (String.mk acc.reverse :: split_space_aux cs []) =
            String.mk acc.reverse ::
              ((split_space_aux cs []).map fun w => " " ++ w) from rfl]
      rw [List.map_cons, List.flatten_cons, data_mk,
        space_tokens_join _ (split_space_aux_ne_nil cs []), ih []]
      simp
    · rw [show split_space_aux (c :: cs) acc = split_space_aux cs (c :: acc) from by
        simp [split_space_aux, hc]]
      rw [ih (c :: acc)]
      simp

theorem join_tokens_split (text : String) :
    ((tokens_str (py_split_space text)).map String.data).flatten = text.data := by
  rw [py_split_space, join_tokens_split_aux]
  rfl

theorem enumFrom_tok (ws : List String) (n : Nat) (h : n ≠ 0) :
    (ws.enumFrom n).map (fun p => if p.fst = 0 then p.snd else " " ++ p.snd) =
      ws.map fun w => " " ++ w := by
  induction ws generalizing n with
  | nil => rfl
  | cons w ws ih =>
    simp only [List.enumFrom, List.map_cons, if_neg h]
    rw [ih (n + 1) (Nat.succ_ne_zero n)]

theorem enum_tok (ws : List String) :
    ws.enum.map (fun p => if p.fst = 0 then p.snd else " " ++ p.snd) = tokens_str ws := by
  cases ws with
  | nil => rfl
  | cons w ws =>
    simp only [List.enum, List.enumFrom, List.map_cons, tokens_str]
    rw [enumFrom_tok ws 1 one_ne_zero]
    simp

theorem stream_body_eq (text : String) (now : Nat) :
    stream_body text now =
      (tokens_str (py_split_space text)).map fun t =>
        SseEvent.chunk (make_sse_chunk t none now) := by
  rw [stream_body, ← enum_tok, List.map_map]
  rfl

theorem event_content_token (t : String) (now : Nat) :
    event_content (SseEvent.chunk (make_sse_chunk t none now)) =
      if t = "" then none else some t := rfl

theorem data_join_filterMap (l : List String) :
    ((l.filterMap fun t => if t = "" then none else some t).map String.data).flatten =
      (l.map String.data).flatten := by
  induction l with
  | nil => rfl
  | cons w ws ih =>
    by_cases hw : w = ""
    · subst hw
      simp [List.filterMap_cons, ih, data_empty]
    · simp [List.filterMap_cons, hw, ih]

/-- C2: streaming splits the text on single-space boundaries, emits token 0
verbatim and every later token with exactly one leading space, preserves
empty tokens from consecutive delimiters (one chunk per word, plus the
terminal chunk and the sentinel), and concatenating all emitted content
fragments in order reproduces the original text byte-for-byte. -/
theorem stream_concat_reproduces_text (text : String) (now : Nat) :
    (stream_body text now =
        (tokens_str (py_split_space text)).map fun t =>
          SseEvent.chunk (make_sse_chunk t none now)) ∧
    (((stream_text text now).filterMap event_content).map String.data).flatten =
      text.data ∧
    (stream_text text now).length = (py_split_space text).length + 2 := by
  refine ⟨stream_body_eq text now, ?_, ?_⟩
  · rw [stream_text, List.filterMap_append, stream_body_eq, List.filterMap_map]
    have hcomp :
        (event_content ∘ fun t => SseEvent.chunk (make_sse_chunk t none now)) =
          fun t => if t = "" then none else some t :=
      funext fun t => event_content_token t now
    rw [hcomp]
    have htail :
        List.filterMap event_content
            [SseEvent.chunk (make_sse_chunk "" (some "stop") now), SseEvent.done] =
          [] := rfl
    rw [htail, List.append_nil, data_join_filterMap, join_tokens_split]
  · rw [stream_text, List.length_append, stream_body, List.length_map,
      List.enum_length]
    rfl

theorem all_map_poly {α β : Type} (f : α → β) (p : β → Bool) (l : List α) :
    (l.map f).all p = l.all fun a => p (f a) := by
  induction l with
  | nil => rfl
  | cons a as ih => simp [ih]

theorem stream_body_no_done (text : String) (now : Nat) :
    (stream_body text now).all (fun e => !is_done_event e) = true := by
  rw [stream_body_eq, all_map_poly, List.all_eq_true]
  intro t _
  rfl

theorem countP_done_body (text : String) (now : Nat) :
    (stream_body text now).countP is_done_event = 0 := by
  rw [List.countP_eq_zero]
  intro e he
  rw [stream_body_eq] at he
  obtain ⟨t, -, rfl⟩ := List.mem_map.mp he
  simp [is_done_event]

/-- C3: the event sequence always ends with a terminal chunk that has no
content and `finish_reason = "stop"`, followed by exactly one `[DONE]`
sentinel; the sentinel is the last line, so no content event follows it,
and no sentinel occurs among the content-bearing chunks. -/
theorem stream_terminates_with_stop_and_done (text : String) (now : Nat) :
    stream_text text now =
      stream_body text now ++
        [SseEvent.chunk (make_sse_chunk "" (some "stop") now), SseEvent.done] ∧
    (stream_body text now).all (fun e => !is_done_event e) = true ∧
    (stream_text text now).countP is_done_event = 1 ∧
    event_content (SseEvent.chunk (make_sse_chunk "" (some "stop") now)) = none ∧
    (make_sse_chunk "" (some "stop") now).choices.map Choice.finish_reason =
      [some "stop"] ∧
    (stream_text text now).getLast? = some SseEvent.done := by
  refine ⟨rfl, stream_body_no_done text now, ?_, rfl, rfl, ?_⟩
  · rw [stream_text, List.countP_append, countP_done_body]
    rfl
  · rw [stream_text,
      show (stream_body text now ++
          [SseEvent.chunk (make_sse_chunk "" (some "stop") now), SseEvent.done]) =
        (stream_body text now ++
          [SseEvent.chunk (make_sse_chunk "" (some "stop") now)]) ++ [SseEvent.done] from by
        simp,
      List.getLast?_concat]

theorem all_filterMap_const_id {α : Type} (l : List α) (c : String) :
    ((l.filterMap fun _ => some c).all fun i => i == c) = true := by
  induction l with
  | nil => rfl
  | cons a as ih => simp [List.filterMap_cons, ih]

theorem stream_ids (text : String) (now : Nat) :
    ((stream_text text now).filterMap event_id).all
      (fun i => i == "chatcmpl-demo") = true := by
  rw [stream_text, List.filterMap_append, stream_body_eq, List.filterMap_map,
    List.all_append]
  have hcomp :
      (event_id ∘ fun t => SseEvent.chunk (make_sse_chunk t none now)) =
        fun _ => some "chatcmpl-demo" :=
    funext fun t => rfl
  rw [hcomp]
  refine (Bool.and_eq_true _ _).mpr ⟨all_filterMap_const_id _ _, rfl⟩

/-- C10: the `id` of every chunk the encoder ever builds is the fixed
literal `"chatcmpl-demo"`, for every fragment, finish reason and timestamp;
hence every chunk of every streamed response, across all responses the
server ever produces, carries this same id and no per-response identifier
exists. -/
theorem chunk_id_is_constant :
    (∀ (content : String) (finish_reason : Option String) (now : Nat),
        (make_sse_chunk content finish_reason now).id = "chatcmpl-demo") ∧
    (∀ (text : String) (now : Nat),
        ((stream_text text now).filterMap event_id).all
          (fun i => i == "chatcmpl-demo") = true) :=
  ⟨fun _ _ _ => rfl, stream_ids⟩

theorem space_append_ne_empty (w : String) : (" " ++ w) ≠ "" := by
  intro h
  have hd := congrArg String.data h
  rw [String.data_append] at hd
  simp [data_empty] at hd

theorem tokens_nonempty (ws : List String)
    (h : ws.all (fun w => decide (w ≠ "")) = true) :
    (tokens_str ws).all (fun t => decide (t ≠ "")) = true := by
  cases ws with
  | nil => rfl
  | cons w vs =>
    rw [show tokens_str (w :: vs) = w :: vs.map (fun x => " " ++ x) from rfl]
    rw [List.all_cons, Bool.and_eq_true] at h ⊢
    refine ⟨h.1, ?_⟩
    rw [all_map_poly, List.all_eq_true]
    intro x _
    simpa using space_append_ne_empty x

theorem stream_body_content_ok (text : String) (now : Nat)
    (h : words_nonempty text = true) :
    (stream_body text now).all content_ok = true := by
  rw [stream_body_eq, all_map_poly, List.all_eq_true]
  intro t ht
  have htok := tokens_nonempty (py_split_space text) h
  rw [List.all_eq_true] at htok
  have hne : t ≠ "" := by simpa using htok t ht
  simp [content_ok, event_content_token, hne]

theorem words_nonempty_read_file : words_nonempty TOOL_CALL_READ_FILE = true := by
  decide

theorem words_nonempty_list_dir : words_nonempty TOOL_CALL_LIST_DIR = true := by
  decide

theorem words_nonempty_final_summary : words_nonempty FINAL_SUMMARY = true := by
  decide

/-- C7: for every response the server can stream (the canned text picked
for any tool-message count) every emitted chunk carries the same id
`"chatcmpl-demo"`, every content-bearing chunk before the terminal one has
a present non-empty `delta.content`, and the terminal chunk instead has an
empty delta and `finish_reason = "stop"`, followed only by the sentinel. -/
theorem stream_chunks_share_id_content_nonempty (c now : Nat) :
    ((stream_text (pick_response c) now).filterMap event_id).all
      (fun i => i == "chatcmpl-demo") = true ∧
    (stream_body (pick_response c) now).all content_ok = true ∧
    stream_text (pick_response c) now =
      stream_body (pick_response c) now ++
        [SseEvent.chunk (make_sse_chunk "" (some "stop") now), SseEvent.done] ∧
    (make_sse_chunk "" (some "stop") now).choices =
      [{ index := 0, delta := { content := none }, finish_reason := some "stop" }] := by
  refine ⟨stream_ids _ now, ?_, rfl, rfl⟩
  have hw : words_nonempty (pick_response c) = true := by
    match c with
    | 0 => exact words_nonempty_read_file
    | 1 => exact words_nonempty_list_dir
    | n + 2 =>
      show words_nonempty (pick_response (n + 2)) = true
      rw [pick_response]
      simp only [Nat.succ_ne_zero, if_false]
      exact words_nonempty_final_summary
  exact stream_body_content_ok _ now hw

/-- C1: the selected response text is a function of the number of
tool-role messages alone: count 0 gives the read-file body, count 1 the
list-directory body, and any count of 2 or more the long-form summary,
regardless of the content, order or other roles of the messages (the
right-hand side depends on nothing but the count `c`). -/
theorem selection_by_tool_count (messages : List Json) (c : Nat)
    (h : tool_msg_count messages = Except.ok c) :
    select_text messages =
      Except.ok
        (if c = 0 then TOOL_CALL_READ_FILE
         else if c = 1 then TOOL_CALL_LIST_DIR
         else FINAL_SUMMARY) := by
  unfold select_text
  rw [h]
  rfl

theorem selection_by_tool_count_witness :
    select_text
        [Json.obj [("role", Json.str "user"), ("content", Json.str "hi")],
         Json.obj [("role", Json.str "tool"), ("content", Json.str "result")]] =
      Except.ok TOOL_CALL_LIST_DIR := by
  have h :=
    selection_by_tool_count
      [Json.obj [("role", Json.str "user"), ("content", Json.str "hi")],
       Json.obj [("role", Json.str "tool"), ("content", Json.str "result")]]
      1 (by rfl)
  simpa using h

/-- C4 as amended: an absent (empty) request body is treated as an empty
message list and the handler streams catalog entry 0; but a non-empty body
that is not valid JSON makes `json.loads` raise, and the error propagates
out of the handler instead of defaulting to an empty message list. -/
theorem absent_body_defaults_malformed_raises (now : Nat) :
    completion_events "" now = Except.ok (stream_text TOOL_CALL_READ_FILE now) ∧
    ∀ (raw : String) (e : PyError), raw ≠ "" → json_loads raw = Except.error e →
      completion_events raw now = Except.error e := by
  constructor
  · rfl
  · intro raw e hraw hparse
    simp only [completion_events, if_neg hraw, hparse]

theorem absent_body_defaults_malformed_raises_witness :
    completion_events "" 0 = Except.ok (stream_text TOOL_CALL_READ_FILE 0) ∧
    completion_events "\x7b" 0 = Except.error PyError.jsonDecodeError :=
  ⟨(absent_body_defaults_malformed_raises 0).1,
   (absent_body_defaults_malformed_raises 0).2 "\x7b" PyError.jsonDecodeError
     (by decide) (by rfl)⟩

/-- C4 counterexample: on the malformed body `"\x7b"` the handler does not
stream catalog entry 0 — it raises a JSON decode error, contradicting the
claim that a malformed body is treated as an empty message list with no
user-visible error. -/
theorem malformed_body_is_not_defaulted :
    completion_events "\x7b" 0 = Except.error PyError.jsonDecodeError ∧
    completion_events "\x7b" 0 ≠ Except.ok (stream_text TOOL_CALL_READ_FILE 0) := by
  refine ⟨rfl, fun hcontra => ?_⟩
  rw [show completion_events "\x7b" 0 = Except.error PyError.jsonDecodeError from rfl]
    at hcontra
  exact Except.noConfusion hcontra

/-- C5 as amended: for a GET whose path is not `/v1/models`, and a POST
whose path is not `/v1/chat/completions`, the handler replies with
`send_error(404)`: a not-found status whose body is the HTTP runtime's
default error page, which is not empty. -/
theorem unknown_route_404_default_error_page (path raw : String) (now : Nat) :
    (path ≠ "/v1/models" → do_GET path now = send_error 404) ∧
    (path ≠ "/v1/chat/completions" → do_POST path raw now = Except.ok (send_error 404)) ∧
    (send_error 404).status = 404 ∧
    (send_error 404).body = ReplyBody.errorPage http_error_404_body ∧
    http_error_404_body ≠ "" := by
  refine ⟨fun h => ?_, fun h => ?_, rfl, rfl, by decide⟩
  · simp [do_GET, h]
  · simp [do_POST, h]

theorem unknown_route_404_default_error_page_witness :
    do_GET "/nope" 0 = send_error 404 ∧
    do_POST "/nope" "" 0 = Except.ok (send_error 404) :=
  ⟨(unknown_route_404_default_error_page "/nope" "" 0).1 (by decide),
   (unknown_route_404_default_error_page "/nope" "" 0).2.1 (by decide)⟩

/-- C5 counterexample: the 404 reply for an unknown route does not have an
empty body — `send_error` sends the default HTML error page. -/
theorem unknown_route_body_not_empty :
    (do_GET "/nope" 0).status = 404 ∧
    (do_GET "/nope" 0).body = ReplyBody.errorPage http_error_404_body ∧
    http_error_404_body ≠ "" :=
  ⟨rfl, rfl, by decide⟩

/-- C6 as amended: the long-form summary contains no closing action-request
delimiter `</tool_call>`, so no delimiter pair wrapping tool-call JSON
occurs in it; the opening delimiter string `<tool_call>` does occur once,
as prose inside backticks. -/
theorem final_summary_no_closing_marker :
    containsSub FINAL_SUMMARY.data TOOL_CALL_CLOSE.data = false ∧
    containsSub FINAL_SUMMARY.data TOOL_CALL_OPEN.data = true := by
  exact ⟨by decide, by decide⟩

/-- C6 counterexample: the opening action-request delimiter `<tool_call>`
does occur in the long-form summary (in the phrase about text-based tags),
contradicting the claim that the delimiter pair used to wrap embedded
tool-call JSON does not occur anywhere in that text. -/
theorem final_summary_contains_open_marker :
    containsSub FINAL_SUMMARY.data TOOL_CALL_OPEN.data = true := by
  decide

/-- C8: `GET /v1/models` always answers 200 with a single non-streamed JSON
document of shape `\x7bobject:"list", data:[...]\x7d` whose data array has
exactly one entry, and that entry's id is the fixed `MODEL_ID`. -/
theorem models_list_single_fixed_entry (now : Nat) :
    do_GET "/v1/models" now = handle_models now ∧
    (handle_models now).status = 200 ∧
    ∃ p, (handle_models now).body = ReplyBody.jsonDoc p ∧
      p.object = "list" ∧ p.data.map ModelEntry.id = [ MODEL_ID ] := by
  refine ⟨rfl, rfl, ⟨_, rfl, rfl, rfl⟩⟩

/-- C9 as amended: the encoded event's delta has the `content` key iff the
fragment is a non-empty string, and the choice has the `finish_reason` key
iff a non-empty finish reason was supplied (Python truthiness also drops a
supplied empty-string reason); an empty fragment yields an event whose
delta is the empty object, with no content key. -/
theorem delta_and_finish_key_presence (content : String) (fr : Option String)
    (now : Nat) :
    ((make_sse_chunk content fr now).choices.map fun ch => ch.delta.content.isSome) =
      [decide (content ≠ "")] ∧
    ((make_sse_chunk content fr now).choices.map fun ch => ch.finish_reason.isSome) =
      [decide (fr ≠ none ∧ fr ≠ some "")] ∧
    (content = "" →
      (make_sse_chunk content fr now).choices.map Choice.delta =
        [{ content := none }]) := by
  refine ⟨?_, ?_, fun hc => ?_⟩
  · by_cases h : content = "" <;> simp [make_sse_chunk, h]
  · rcases fr with _ | s
    · simp [make_sse_chunk]
    · by_cases h : s = "" <;> simp [make_sse_chunk, h]
  · subst hc
    simp [make_sse_chunk]

theorem delta_and_finish_key_presence_witness :
    (make_sse_chunk "" none 0).choices.map Choice.delta = [{ content := none }] :=
  (delta_and_finish_key_presence "" none 0).2.2 rfl

/-- C9 counterexample: the empty string is a supplied finish reason
(`some "" ≠ none`), yet the encoder omits the `finish_reason` key for it,
contradicting the claimed "iff a finish reason was supplied". -/
theorem empty_finish_reason_supplied_key_omitted :
    (some "" : Option String) ≠ none ∧
    (make_sse_chunk "x" (some "") 0).choices.map Choice.finish_reason = [none] :=
  ⟨by decide, rfl⟩
